import Mathlib

/-!
Verification of the configuration / client-lifecycle core of the OCI auth
backend (`backend.go`, `path_config.go`).

The Go code is shallowly embedded: the persisted `OCIConfigEntry`, the
storage collaborator (key `"config"` plus failure flags for the external
storage engine), the provider factory (`createInstancePrincipalProvider`,
`createAPIKeyProvider`), the cached-client lifecycle
(`getOrCreateAuthClient`, `Invalidate`), and the CRUD handlers
(`pathConfigRead`, `pathConfigCreateUpdate`, `pathConfigDelete`).
External collaborators (the OCI SDK provider constructors and the client
constructor) are abstracted by an `Env` record of success flags: the
embedding only tracks which variant was constructed and whether the
environment-dependent steps succeed.
-/

namespace OciAuth

/-- String containment check: does `sub` occur in `s`?  Models Go
`strings.Contains`, executed over the character lists. -/
def leadsWith : List Char → List Char → Bool
  | [], _ => true
  | _ :: _, [] => false
  | a :: as, b :: bs => a = b && leadsWith as bs

/-- Auxiliary scan for `hasSub`. -/
def hasSubList (sub : List Char) : List Char → Bool
  | [] => leadsWith sub []
  | c :: rest => leadsWith sub (c :: rest) || hasSubList sub rest

/-- Models Go `strings.Contains s sub`. -/
def hasSub (s sub : String) : Bool :=
  hasSubList sub.data s.data

/-- Whitespace recognized by Go `strings.TrimSpace` (ASCII core). -/
def goIsSpace (c : Char) : Bool :=
  c = ' ' || c = '\t' || c = '\n' || c = '\x0b' || c = '\x0c' || c = '\r'

/-- Drop leading whitespace characters. -/
def dropLeadingSpace : List Char → List Char
  | [] => []
  | c :: cs => if goIsSpace c then dropLeadingSpace cs else c :: cs

/-- Models Go `strings.TrimSpace`. -/
def trimSpace (s : String) : String :=
  ⟨dropLeadingSpace (dropLeadingSpace s.data.reverse).reverse⟩

/-- The persisted configuration record (`OCIConfigEntry` in
`path_config.go`). -/
structure OCIConfigEntry where
  HomeTenancyId : String
  AuthMode : String
  TenancyOCID : String
  UserOCID : String
  Fingerprint : String
  PrivateKey : String
  PrivateKeyPassphrase : String
  Region : String
deriving DecidableEq, Repr

/-- The credential-proof strategy built by the provider factory: either the
ambient instance-principal variant (no stored secret, environment derived)
or the explicit raw configuration built by
`common.NewRawConfigurationProvider` with an optional passphrase pointer. -/
inductive ConfigurationProvider where
  | instancePrincipal
  | raw (tenancy user region fingerprint privateKey : String)
      (passphrase : Option String)
deriving DecidableEq, Repr

/-- The authentication client; opaque in the Go code apart from wrapping
one configuration provider. -/
structure AuthenticationClient where
  provider : ConfigurationProvider
deriving DecidableEq, Repr

/-- Environment-dependent outcomes of the external OCI SDK calls:
whether `auth.InstancePrincipalConfigurationProvider()` succeeds and
whether `NewAuthenticationClientWithConfigurationProvider` succeeds on a
given provider. -/
structure Env where
  instancePrincipalOk : Bool
  clientBuildOk : ConfigurationProvider → Bool

/-- Models `createInstancePrincipalProvider` in `backend.go`: delegates to
the SDK; on failure, wraps the error with a remediation hint. -/
def createInstancePrincipalProvider (env : Env) :
    Except String ConfigurationProvider :=
  if env.instancePrincipalOk then
    .ok .instancePrincipal
  else
    .error "unable to create Instance Principal provider. This error typically occurs when Vault is not running on an OCI instance. To run Vault outside OCI, configure API key authentication"

/-- Models `createAPIKeyProvider` in `backend.go`: validates the five
required fields, then builds the raw provider, passing the passphrase
pointer only when the stored passphrase is non-blank. -/
def createAPIKeyProvider (config : OCIConfigEntry) :
    Except String ConfigurationProvider :=
  if config.TenancyOCID = "" ∨ config.UserOCID = "" ∨
      config.Fingerprint = "" ∨ config.PrivateKey = "" ∨ config.Region = "" then
    .error "API key authentication requires tenancy_ocid, user_ocid, fingerprint, private_key, and region"
  else
    .ok (.raw config.TenancyOCID config.UserOCID config.Region
      config.Fingerprint config.PrivateKey
      (if config.PrivateKeyPassphrase = "" then none
       else some config.PrivateKeyPassphrase))

/-- Models `NewAuthenticationClientWithConfigurationProvider` (external
OCI SDK): succeeds or fails according to the environment. -/
def newAuthenticationClientWithConfigurationProvider (env : Env)
    (p : ConfigurationProvider) : Except String AuthenticationClient :=
  if env.clientBuildOk p then .ok ⟨p⟩
  else .error "client construction failed"

/-- The external storage collaborator restricted to the single `"config"`
key this backend uses, with failure flags standing for storage-layer
errors on get, put and delete. -/
structure Storage where
  config : Option OCIConfigEntry
  getOk : Bool
  putOk : Bool
  deleteOk : Bool
deriving DecidableEq, Repr

/-- Models `getOCIConfig` in `path_config.go`: a storage read of the
`"config"` key, returning `none` when absent and an error on a
storage-layer failure. -/
def getOCIConfig (s : Storage) : Except String (Option OCIConfigEntry) :=
  if s.getOk then .ok s.config else .error "storage get error"

/-- Models `setOCIConfig` in `path_config.go`: fails when the entry is
absent, otherwise serializes and writes under the `"config"` key. -/
def setOCIConfig (s : Storage) (configEntry : Option OCIConfigEntry) :
    Except String Storage :=
  match configEntry with
  | none => .error "config is not found"
  | some e => if s.putOk then .ok { s with config := some e }
              else .error "storage put error"

/-- The mutable state of the backend: the cached authentication client
slot (`backend.authenticationClient` in `backend.go`). -/
structure BackendState where
  authenticationClient : Option AuthenticationClient
deriving DecidableEq, Repr

/-- Models `Invalidate` in `backend.go`: clears the cached client when the
invalidated key is `"config"`, and does nothing otherwise. -/
def Invalidate (b : BackendState) (key : String) : BackendState :=
  if key = "config" then { authenticationClient := none } else b

/-- Models `framework.Backend.InvalidateKey` (Vault SDK) as reached from
this repository: the SDK method dispatches through the `Invalidate`
callback *field* of the embedded `framework.Backend` and does nothing
when that field is nil.  `Backend()` in `backend.go` (lines 42-57) builds
the `framework.Backend` literal without ever registering the
`(*backend).Invalidate` method as that callback, so the handlers' calls
`b.InvalidateKey(ctx, "config")` hit the nil check and are no-ops: the
`Invalidate` method above is never invoked through them. -/
def InvalidateKey (b : BackendState) (_key : String) : BackendState :=
  b

/-- The provider selection branch of `getOrCreateAuthClient`
(`backend.go` lines 80-93): defaults to instance principal when the
config is absent or its mode is empty or `"instance"`, uses the API key
provider for `"apikey"`, and rejects any other mode. -/
def providerForConfig (env : Env) (config : Option OCIConfigEntry) :
    Except String ConfigurationProvider :=
  match config with
  | none => createInstancePrincipalProvider env
  | some cfg =>
    if cfg.AuthMode = "" ∨ cfg.AuthMode = "instance" then
      createInstancePrincipalProvider env
    else if cfg.AuthMode = "apikey" then
      createAPIKeyProvider cfg
    else
      .error ("invalid auth_mode: " ++ cfg.AuthMode)

/-- Models `getOrCreateAuthClient` in `backend.go`: returns the cached
client when present; otherwise reads the config, builds the provider,
wraps it in a client and caches it.  The state component of the result is
the backend state after the call; it changes only when a client is built
and stored. -/
def getOrCreateAuthClient (env : Env) (b : BackendState) (s : Storage) :
    Except String AuthenticationClient × BackendState :=
  match b.authenticationClient with
  | some c => (.ok c, b)
  | none =>
    match getOCIConfig s with
    | .error e => (.error ("failed to read config: " ++ e), b)
    | .ok config =>
      match providerForConfig env config with
      | .error e => (.error e, b)
      | .ok configProvider =>
        match newAuthenticationClientWithConfigurationProvider env
            configProvider with
        | .error e => (.error ("unable to create authenticationClient: " ++ e), b)
        | .ok client => (.ok client, { authenticationClient := some client })

/-- The request fields recognized by the `config` path schema.  A field
left unset by the caller is the schema default: the empty string for all
string fields, and `"instance"` for `auth_mode` — absence of `auth_mode`
is modelled by `none`, and `FieldData` `Get` applies the default. -/
structure FieldData where
  home_tenancy_id : String
  auth_mode : Option String
  tenancy_ocid : String
  user_ocid : String
  fingerprint : String
  private_key : String
  private_key_passphrase : String
  region : String
deriving DecidableEq, Repr

/-- The request verb dispatched to `pathConfigCreateUpdate`. -/
inductive Operation where
  | create
  | update
deriving DecidableEq, Repr

/-- The outcome of a CRUD handler: an internal error (Go `nil, err`), a
user-facing `logical.ErrorResponse`, or a successful (empty) response. -/
inductive HandlerResult where
  | internalError (msg : String)
  | errorResponse (msg : String)
  | success
deriving DecidableEq, Repr

/-- The effective auth mode of a request: the submitted value, with the
schema default `"instance"` when absent, and the explicit
backwards-compatibility fallback to `"instance"` when empty
(`path_config.go` lines 194-197). -/
def authModeOf (data : FieldData) : String :=
  let raw := data.auth_mode.getD "instance"
  if raw = "" then "instance" else raw

/-- The brand-new `OCIConfigEntry` a successful Create/Update builds from
the submitted fields (`path_config.go` lines 204-237): the API-key fields
are taken from the request only in `"apikey"` mode and are empty
otherwise. -/
def entryFromFields (data : FieldData) : OCIConfigEntry :=
  if authModeOf data = "apikey" then
    { HomeTenancyId := data.home_tenancy_id
      AuthMode := authModeOf data
      TenancyOCID := data.tenancy_ocid
      UserOCID := data.user_ocid
      Fingerprint := data.fingerprint
      PrivateKey := data.private_key
      PrivateKeyPassphrase := data.private_key_passphrase
      Region := data.region }
  else
    { HomeTenancyId := data.home_tenancy_id
      AuthMode := authModeOf data
      TenancyOCID := ""
      UserOCID := ""
      Fingerprint := ""
      PrivateKey := ""
      PrivateKeyPassphrase := ""
      Region := "" }

/-- Models `pathConfigRead` in `path_config.go`: reads the config, returns
no content when absent, and otherwise builds the response map as an
association list — `home_tenancy_id`, then `auth_mode` when set, then the
non-sensitive API-key fields when the mode is `"apikey"`.  The private key
and passphrase are never added. -/
def pathConfigRead (s : Storage) :
    Except String (Option (List (String × String))) :=
  match getOCIConfig s with
  | .error e => .error e
  | .ok none => .ok none
  | .ok (some configEntry) =>
    let d0 := [("home_tenancy_id", configEntry.HomeTenancyId)]
    let d1 := if configEntry.AuthMode = "" then d0
              else d0 ++ [("auth_mode", configEntry.AuthMode)]
    let d2 := if configEntry.AuthMode = "apikey" then
                d1 ++ [("tenancy_ocid", configEntry.TenancyOCID),
                       ("user_ocid", configEntry.UserOCID),
                       ("fingerprint", configEntry.Fingerprint),
                       ("region", configEntry.Region)]
              else d1
    .ok (some d2)

/-- Models `pathConfigCreateUpdate` in `path_config.go`, in source order:
blank `home_tenancy_id` check, config read, Update-requires-existing
check, auth-mode resolution and validation, API-key field and PEM
validation, persistence, and the invalidation signal on success.  Returns
the handler outcome together with the storage and backend state after the
call. -/
def pathConfigCreateUpdate (op : Operation) (b : BackendState) (s : Storage)
    (data : FieldData) : HandlerResult × Storage × BackendState :=
  if trimSpace data.home_tenancy_id = "" then
    (.errorResponse "Missing homeTenancyId", s, b)
  else
    match getOCIConfig s with
    | .error e => (.internalError e, s, b)
    | .ok configEntry =>
      if configEntry = none ∧ op = Operation.update then
        (.errorResponse "The specified config does not exist", s, b)
      else
        if authModeOf data ≠ "instance" ∧ authModeOf data ≠ "apikey" then
          (.errorResponse "auth_mode must be \x27instance\x27 or \x27apikey\x27", s, b)
        else
          if authModeOf data = "apikey" then
            if data.tenancy_ocid = "" ∨ data.user_ocid = "" ∨
                data.fingerprint = "" ∨ data.private_key = "" ∨
                data.region = "" then
              (.errorResponse "API key authentication requires tenancy_ocid, user_ocid, fingerprint, private_key, and region", s, b)
            else if hasSub data.private_key "BEGIN" = false ∨
                hasSub data.private_key "PRIVATE KEY" = false then
              (.errorResponse "private_key must be in PEM format", s, b)
            else
              match setOCIConfig s (some (entryFromFields data)) with
              | .error e => (.internalError e, s, b)
              | .ok s2 => (.success, s2, InvalidateKey b "config")
          else
            match setOCIConfig s (some (entryFromFields data)) with
            | .error e => (.internalError e, s, b)
            | .ok s2 => (.success, s2, InvalidateKey b "config")

/-- Models `pathConfigDelete` in `path_config.go`: deletes the `"config"`
storage key (no error when already absent) and fires the invalidation
signal. -/
def pathConfigDelete (b : BackendState) (s : Storage) :
    HandlerResult × Storage × BackendState :=
  if s.deleteOk then
    (.success, { s with config := none }, InvalidateKey b "config")
  else
    (.internalError "storage delete error", s, b)

/-- Models `pathConfigExistenceCheck` in `path_config.go`: reports whether
a config entry is currently stored. -/
def pathConfigExistenceCheck (s : Storage) : Except String Bool :=
  match getOCIConfig s with
  | .error e => .error e
  | .ok entry => .ok (entry ≠ none)

end OciAuth

/-! ### Helper lemmas shared by the claim theorems -/

namespace OciAuth

lemma getOCIConfig_ok (s : Storage) (h : s.getOk = true) :
    getOCIConfig s = .ok s.config := by
  simp [getOCIConfig, h]

lemma invalidateKey_noop (b : BackendState) (key : String) :
    InvalidateKey b key = b := rfl

/-- A successful Create/Update stores exactly the entry built from the
submitted fields; the backend state is returned unchanged because the
handler's invalidation call is a no-op (see `InvalidateKey`). -/
lemma createUpdate_success_shape (op : Operation) (b : BackendState)
    (s : Storage) (data : FieldData) (s2 : Storage) (b2 : BackendState)
    (hrun : pathConfigCreateUpdate op b s data = (.success, s2, b2)) :
    s2 = { s with config := some (entryFromFields data) } ∧
    b2 = b := by
  simp only [pathConfigCreateUpdate] at hrun
  split at hrun
  · simp at hrun
  · split at hrun
    · simp at hrun
    · split at hrun
      · simp at hrun
      · split at hrun
        · simp at hrun
        · split at hrun
          · split at hrun
            · simp at hrun
            · split at hrun
              · simp at hrun
              · split at hrun
                · simp at hrun
                · next heqput =>
                  simp only [setOCIConfig] at heqput
                  split at heqput
                  · simp only [Except.ok.injEq] at heqput
                    simp only [Prod.mk.injEq] at hrun
                    obtain ⟨-, h2, h3⟩ := hrun
                    subst heqput
                    subst h2
                    subst h3
                    exact ⟨rfl, rfl⟩
                  · simp at heqput
          · split at hrun
            · simp at hrun
            · next heqput =>
              simp only [setOCIConfig] at heqput
              split at heqput
              · simp only [Except.ok.injEq] at heqput
                simp only [Prod.mk.injEq] at hrun
                obtain ⟨-, h2, h3⟩ := hrun
                subst heqput
                subst h2
                subst h3
                exact ⟨rfl, rfl⟩
              · simp at heqput

/-- Any non-successful Create/Update outcome leaves both the storage and
the backend state exactly as they were. -/
lemma createUpdate_failure_frame (op : Operation) (b : BackendState)
    (s : Storage) (data : FieldData) (r : HandlerResult) (s2 : Storage)
    (b2 : BackendState)
    (hrun : pathConfigCreateUpdate op b s data = (r, s2, b2))
    (hr : r ≠ .success) :
    s2 = s ∧ b2 = b := by
  simp only [pathConfigCreateUpdate] at hrun
  repeat' split at hrun
  all_goals simp only [Prod.mk.injEq] at hrun
  all_goals obtain ⟨h1, h2, h3⟩ := hrun
  all_goals first
    | exact ⟨h2.symm, h3.symm⟩
    | exact absurd h1.symm hr

end OciAuth

namespace OciAuth

/-- A failing `getOrCreateAuthClient` leaves the backend state untouched. -/
lemma getOrCreate_error_frame (env : Env) (b : BackendState) (s : Storage)
    (e : String) (b2 : BackendState)
    (hrun : getOrCreateAuthClient env b s = (.error e, b2)) :
    b2 = b := by
  simp only [getOrCreateAuthClient] at hrun
  repeat' split at hrun
  all_goals simp only [Prod.mk.injEq] at hrun
  all_goals obtain ⟨h1, h2⟩ := hrun
  all_goals first
    | exact h2.symm
    | exact absurd h1.symm (by simp)

/-- A successful build from an empty cache read the storage, derived the
provider from the stored config, and cached exactly the returned client. -/
lemma getOrCreate_empty_build (env : Env) (b : BackendState) (s : Storage)
    (c : AuthenticationClient) (b2 : BackendState)
    (hcache : b.authenticationClient = none)
    (hrun : getOrCreateAuthClient env b s = (.ok c, b2)) :
    s.getOk = true ∧ providerForConfig env s.config = .ok c.provider ∧
    b2 = { authenticationClient := some c } := by
  simp only [getOrCreateAuthClient, hcache] at hrun
  split at hrun
  · simp at hrun
  · next config heqget =>
    split at hrun
    · simp at hrun
    · next p heqp =>
      split at hrun
      · simp at hrun
      · next client heqc =>
        simp only [Prod.mk.injEq, Except.ok.injEq] at hrun
        obtain ⟨h1, h2⟩ := hrun
        subst h1
        subst h2
        have hget : s.getOk = true := by
          by_contra hg
          simp [getOCIConfig, hg] at heqget
        rw [getOCIConfig_ok s hget] at heqget
        simp only [Except.ok.injEq] at heqget
        subst heqget
        simp only [newAuthenticationClientWithConfigurationProvider] at heqc
        split at heqc
        · simp only [Except.ok.injEq] at heqc
          subst heqc
          exact ⟨hget, heqp, rfl⟩
        · simp at heqc

end OciAuth

namespace OciAuth

lemma providerForConfig_instance (env : Env) (config : Option OCIConfigEntry)
    (h : config = none ∨ ∃ e, config = some e ∧
      (e.AuthMode = "" ∨ e.AuthMode = "instance")) :
    providerForConfig env config = createInstancePrincipalProvider env := by
  rcases h with h | ⟨e, he, hm⟩
  · rw [h]
    rfl
  · rw [he]
    simp only [providerForConfig]
    rw [if_pos hm]

lemma providerForConfig_apikey (env : Env) (e : OCIConfigEntry)
    (hmode : e.AuthMode = "apikey") :
    providerForConfig env (some e) = createAPIKeyProvider e := by
  simp [providerForConfig, hmode]

lemma providerForConfig_invalid (env : Env) (e : OCIConfigEntry)
    (h1 : e.AuthMode ≠ "") (h2 : e.AuthMode ≠ "instance")
    (h3 : e.AuthMode ≠ "apikey") :
    providerForConfig env (some e) =
      .error ("invalid auth_mode: " ++ e.AuthMode) := by
  simp [providerForConfig, h1, h2, h3]

lemma getOrCreate_provider_error (env : Env) (b : BackendState) (s : Storage)
    (msg : String) (hcache : b.authenticationClient = none)
    (hget : s.getOk = true)
    (herr : providerForConfig env s.config = .error msg) :
    getOrCreateAuthClient env b s = (.error msg, b) := by
  simp only [getOrCreateAuthClient, hcache, getOCIConfig_ok s hget, herr]

end OciAuth

/-! ### Claim theorems -/

namespace OciAuth

/-- C10: for every key other than `"config"`, `Invalidate` leaves the
backend state — in particular the cached `authenticationClient` —
unchanged; only invalidation of the `"config"` key clears the cache. -/
theorem invalidate_other_key_noop (b : BackendState) (key : String)
    (h : key ≠ "config") : Invalidate b key = b := by
  simp [Invalidate, h]

/-- Witness for C10 at a concrete non-config key and a non-empty cache. -/
theorem invalidate_other_key_noop_witness :
    Invalidate ⟨some ⟨.instancePrincipal⟩⟩ "roles" =
      ⟨some ⟨.instancePrincipal⟩⟩ :=
  invalidate_other_key_noop ⟨some ⟨.instancePrincipal⟩⟩ "roles" (by decide)

/-- C8: an Update request with no stored config fails with the not-found
error response and leaves both the storage and the backend state exactly
as they were — Update never creates a record. -/
theorem update_without_config_not_found (b : BackendState) (s : Storage)
    (data : FieldData) (hget : s.getOk = true) (hcfg : s.config = none)
    (hht : ¬ trimSpace data.home_tenancy_id = "") :
    pathConfigCreateUpdate .update b s data =
      (.errorResponse "The specified config does not exist", s, b) := by
  simp [pathConfigCreateUpdate, hht, getOCIConfig_ok s hget, hcfg]

/-- Witness for C8: an Update on an empty storage with a non-blank home
tenancy id. -/
theorem update_without_config_not_found_witness :
    pathConfigCreateUpdate .update ⟨none⟩ ⟨none, true, true, true⟩
        ⟨"t1", none, "", "", "", "", "", ""⟩ =
      (.errorResponse "The specified config does not exist",
        ⟨none, true, true, true⟩, ⟨none⟩) :=
  update_without_config_not_found ⟨none⟩ ⟨none, true, true, true⟩
    ⟨"t1", none, "", "", "", "", "", ""⟩ rfl rfl (by decide)

/-- C2: for every stored config in `"apikey"` mode, Read succeeds with a
result holding exactly the keys `home_tenancy_id`, `auth_mode`,
`tenancy_ocid`, `user_ocid`, `fingerprint` and `region`, and the keys
`private_key` and `private_key_passphrase` never occur in the result,
regardless of the stored values. -/
theorem pathConfigRead_apikey_redaction (s : Storage) (e : OCIConfigEntry)
    (hcfg : s.config = some e) (hget : s.getOk = true)
    (hmode : e.AuthMode = "apikey") :
    pathConfigRead s = .ok (some [("home_tenancy_id", e.HomeTenancyId),
        ("auth_mode", e.AuthMode), ("tenancy_ocid", e.TenancyOCID),
        ("user_ocid", e.UserOCID), ("fingerprint", e.Fingerprint),
        ("region", e.Region)]) ∧
    ∀ l, pathConfigRead s = .ok (some l) →
      "private_key" ∉ l.map Prod.fst ∧
      "private_key_passphrase" ∉ l.map Prod.fst := by
  have hfirst : pathConfigRead s =
      .ok (some [("home_tenancy_id", e.HomeTenancyId),
        ("auth_mode", e.AuthMode), ("tenancy_ocid", e.TenancyOCID),
        ("user_ocid", e.UserOCID), ("fingerprint", e.Fingerprint),
        ("region", e.Region)]) := by
    simp [pathConfigRead, getOCIConfig_ok s hget, hcfg, hmode]
  refine ⟨hfirst, ?_⟩
  intro l hl
  rw [hfirst] at hl
  simp only [Except.ok.injEq, Option.some.injEq] at hl
  subst hl
  simp

/-- Witness for C2 at a concrete stored entry whose secret fields are
non-empty. -/
theorem pathConfigRead_apikey_redaction_witness :
    pathConfigRead ⟨some ⟨"t1", "apikey", "t2", "u1", "fp", "SECRETKEY",
        "SECRETPASS", "r1"⟩, true, true, true⟩ =
      .ok (some [("home_tenancy_id", "t1"), ("auth_mode", "apikey"),
        ("tenancy_ocid", "t2"), ("user_ocid", "u1"), ("fingerprint", "fp"),
        ("region", "r1")]) ∧
    ∀ l, pathConfigRead ⟨some ⟨"t1", "apikey", "t2", "u1", "fp", "SECRETKEY",
        "SECRETPASS", "r1"⟩, true, true, true⟩ = .ok (some l) →
      "private_key" ∉ l.map Prod.fst ∧
      "private_key_passphrase" ∉ l.map Prod.fst :=
  pathConfigRead_apikey_redaction _ ⟨"t1", "apikey", "t2", "u1", "fp",
    "SECRETKEY", "SECRETPASS", "r1"⟩ rfl rfl rfl

/-- C3: a Create/Update call that fails validation (any error response)
leaves the previously stored record and the backend state unchanged, and
the cached-client slot or the storage can change only when the call
succeeds — so the invalidation signal fires only after the storage put
succeeds. -/
theorem createUpdate_validation_atomic (op : Operation) (b : BackendState)
    (s : Storage) (data : FieldData) (r : HandlerResult) (s2 : Storage)
    (b2 : BackendState) (msg : String)
    (hrun : pathConfigCreateUpdate op b s data = (r, s2, b2)) :
    (r = .errorResponse msg → s2 = s ∧ b2 = b) ∧
    (b2 ≠ b → r = .success) ∧
    (s2 ≠ s → r = .success) := by
  refine ⟨?_, ?_, ?_⟩
  · intro hr
    exact createUpdate_failure_frame op b s data r s2 b2 hrun (by simp [hr])
  · intro hb
    by_contra hr
    exact hb (createUpdate_failure_frame op b s data r s2 b2 hrun hr).2
  · intro hs
    by_contra hr
    exact hs (createUpdate_failure_frame op b s data r s2 b2 hrun hr).1

/-- Witness for C3: a concrete Create whose `auth_mode` is invalid fails
and leaves a previously stored record and a cached client unchanged. -/
theorem createUpdate_validation_atomic_witness :
    ((HandlerResult.errorResponse "auth_mode must be \x27instance\x27 or \x27apikey\x27" =
        .errorResponse "auth_mode must be \x27instance\x27 or \x27apikey\x27" →
      (pathConfigCreateUpdate .create ⟨some ⟨.instancePrincipal⟩⟩
        ⟨some ⟨"t0", "instance", "", "", "", "", "", ""⟩, true, true, true⟩
        ⟨"t1", some "bogus", "", "", "", "", "", ""⟩).2.1 =
        ⟨some ⟨"t0", "instance", "", "", "", "", "", ""⟩, true, true, true⟩ ∧
      (pathConfigCreateUpdate .create ⟨some ⟨.instancePrincipal⟩⟩
        ⟨some ⟨"t0", "instance", "", "", "", "", "", ""⟩, true, true, true⟩
        ⟨"t1", some "bogus", "", "", "", "", "", ""⟩).2.2 =
        ⟨some ⟨.instancePrincipal⟩⟩) ∧
     ((pathConfigCreateUpdate .create ⟨some ⟨.instancePrincipal⟩⟩
        ⟨some ⟨"t0", "instance", "", "", "", "", "", ""⟩, true, true, true⟩
        ⟨"t1", some "bogus", "", "", "", "", "", ""⟩).2.2 ≠
        ⟨some ⟨.instancePrincipal⟩⟩ →
      HandlerResult.errorResponse "auth_mode must be \x27instance\x27 or \x27apikey\x27" = .success) ∧
     ((pathConfigCreateUpdate .create ⟨some ⟨.instancePrincipal⟩⟩
        ⟨some ⟨"t0", "instance", "", "", "", "", "", ""⟩, true, true, true⟩
        ⟨"t1", some "bogus", "", "", "", "", "", ""⟩).2.1 ≠
        ⟨some ⟨"t0", "instance", "", "", "", "", "", ""⟩, true, true, true⟩ →
      HandlerResult.errorResponse "auth_mode must be \x27instance\x27 or \x27apikey\x27" = .success)) :=
  createUpdate_validation_atomic .create ⟨some ⟨.instancePrincipal⟩⟩
    ⟨some ⟨"t0", "instance", "", "", "", "", "", ""⟩, true, true, true⟩
    ⟨"t1", some "bogus", "", "", "", "", "", ""⟩
    (.errorResponse "auth_mode must be \x27instance\x27 or \x27apikey\x27")
    (pathConfigCreateUpdate .create ⟨some ⟨.instancePrincipal⟩⟩
      ⟨some ⟨"t0", "instance", "", "", "", "", "", ""⟩, true, true, true⟩
      ⟨"t1", some "bogus", "", "", "", "", "", ""⟩).2.1
    (pathConfigCreateUpdate .create ⟨some ⟨.instancePrincipal⟩⟩
      ⟨some ⟨"t0", "instance", "", "", "", "", "", ""⟩, true, true, true⟩
      ⟨"t1", some "bogus", "", "", "", "", "", ""⟩).2.2
    "auth_mode must be \x27instance\x27 or \x27apikey\x27" (by decide)

end OciAuth

namespace OciAuth

/-- C5: every successful Create/Update overwrites the stored record with
exactly the entry built from the submitted fields plus defaults — the
rest of the storage is untouched and nothing is merged from the prior
entry — and when the submitted mode is not `"apikey"` the persisted entry
carries no API-key field values at all. -/
theorem createUpdate_full_replace (op : Operation) (b : BackendState)
    (s : Storage) (data : FieldData) (s2 : Storage) (b2 : BackendState)
    (hrun : pathConfigCreateUpdate op b s data = (.success, s2, b2)) :
    s2 = { s with config := some (entryFromFields data) } ∧
    (authModeOf data ≠ "apikey" →
      (entryFromFields data).TenancyOCID = "" ∧
      (entryFromFields data).UserOCID = "" ∧
      (entryFromFields data).Fingerprint = "" ∧
      (entryFromFields data).PrivateKey = "" ∧
      (entryFromFields data).PrivateKeyPassphrase = "" ∧
      (entryFromFields data).Region = "") := by
  refine ⟨(createUpdate_success_shape op b s data s2 b2 hrun).1, ?_⟩
  intro hmode
  simp [entryFromFields, hmode]

/-- Witness for C5: updating a stored `apikey` config A with an
`instance`-mode config B leaves exactly B with blank API-key fields. -/
theorem createUpdate_full_replace_witness :
    (⟨some (entryFromFields ⟨"t9", some "instance", "", "", "", "", "", ""⟩),
        true, true, true⟩ : Storage) =
      { (⟨some ⟨"t0", "apikey", "ta", "ua", "fa", "ka", "pa", "ra"⟩,
          true, true, true⟩ : Storage) with
        config := some (entryFromFields
          ⟨"t9", some "instance", "", "", "", "", "", ""⟩) } ∧
    (authModeOf ⟨"t9", some "instance", "", "", "", "", "", ""⟩ ≠ "apikey" →
      (entryFromFields ⟨"t9", some "instance", "", "", "", "", "", ""⟩).TenancyOCID = "" ∧
      (entryFromFields ⟨"t9", some "instance", "", "", "", "", "", ""⟩).UserOCID = "" ∧
      (entryFromFields ⟨"t9", some "instance", "", "", "", "", "", ""⟩).Fingerprint = "" ∧
      (entryFromFields ⟨"t9", some "instance", "", "", "", "", "", ""⟩).PrivateKey = "" ∧
      (entryFromFields ⟨"t9", some "instance", "", "", "", "", "", ""⟩).PrivateKeyPassphrase = "" ∧
      (entryFromFields ⟨"t9", some "instance", "", "", "", "", "", ""⟩).Region = "") :=
  createUpdate_full_replace .update ⟨none⟩
    ⟨some ⟨"t0", "apikey", "ta", "ua", "fa", "ka", "pa", "ra"⟩, true, true, true⟩
    ⟨"t9", some "instance", "", "", "", "", "", ""⟩
    ⟨some (entryFromFields ⟨"t9", some "instance", "", "", "", "", "", ""⟩),
      true, true, true⟩ ⟨none⟩ (by decide)

/-- C7: whenever `getOrCreateAuthClient` fails, the backend state is left
exactly as it was — in particular an empty cached-client slot stays
empty — and the very next call, from the returned state, performs the
same full build as a call from the original state. -/
theorem getOrCreate_failure_no_poison (env : Env) (b : BackendState)
    (s : Storage) (e : String)
    (hrun : (getOrCreateAuthClient env b s).1 = .error e) :
    (getOrCreateAuthClient env b s).2 = b ∧
    (b.authenticationClient = none →
      (getOrCreateAuthClient env b s).2.authenticationClient = none) ∧
    (∀ env2 s2, getOrCreateAuthClient env2 (getOrCreateAuthClient env b s).2 s2 =
      getOrCreateAuthClient env2 b s2) := by
  have hpair : getOrCreateAuthClient env b s =
      (.error e, (getOrCreateAuthClient env b s).2) := by
    rw [← hrun]
  have hb : (getOrCreateAuthClient env b s).2 = b :=
    getOrCreate_error_frame env b s e _ hpair
  refine ⟨hb, ?_, ?_⟩
  · intro hc
    rw [hb]
    exact hc
  · intro env2 s2
    rw [hb]

/-- Witness for C7: a storage-read failure propagates and the cache slot
stays empty. -/
theorem getOrCreate_failure_no_poison_witness :
    (getOrCreateAuthClient ⟨true, fun _ => true⟩ ⟨none⟩
      ⟨none, false, true, true⟩).2 = ⟨none⟩ ∧
    ((⟨none⟩ : BackendState).authenticationClient = none →
      (getOrCreateAuthClient ⟨true, fun _ => true⟩ ⟨none⟩
        ⟨none, false, true, true⟩).2.authenticationClient = none) ∧
    (∀ env2 s2, getOrCreateAuthClient env2
        (getOrCreateAuthClient ⟨true, fun _ => true⟩ ⟨none⟩
          ⟨none, false, true, true⟩).2 s2 =
      getOrCreateAuthClient env2 ⟨none⟩ s2) :=
  getOrCreate_failure_no_poison ⟨true, fun _ => true⟩ ⟨none⟩
    ⟨none, false, true, true⟩ "failed to read config: storage get error"
    rfl

/-- C1: refuted by the source as wired: `Backend()` never registers the
`Invalidate` method as the framework invalidation callback, so the
handlers' `InvalidateKey` calls never clear the cache.  Concretely: a
client C1 (instance principal) is built and cached from stored config X
(`instance` mode); an Update to config Y (`apikey` mode) succeeds and
persists exactly Y, yet the cache still holds C1; the next
`getOrCreateAuthClient` returns the stale C1, whose provider differs
from the provider the stored config Y would yield. -/
theorem invalidation_never_fires_bug :
    getOrCreateAuthClient ⟨true, fun _ => true⟩ ⟨none⟩
        ⟨some ⟨"t0", "instance", "", "", "", "", "", ""⟩, true, true, true⟩ =
      (.ok ⟨.instancePrincipal⟩, ⟨some ⟨.instancePrincipal⟩⟩) ∧
    pathConfigCreateUpdate .update ⟨some ⟨.instancePrincipal⟩⟩
        ⟨some ⟨"t0", "instance", "", "", "", "", "", ""⟩, true, true, true⟩
        ⟨"t1", some "apikey", "ty", "uy", "fy", "BEGIN PRIVATE KEY", "",
          "ry"⟩ =
      (.success,
        ⟨some (entryFromFields ⟨"t1", some "apikey", "ty", "uy", "fy",
          "BEGIN PRIVATE KEY", "", "ry"⟩), true, true, true⟩,
        ⟨some ⟨.instancePrincipal⟩⟩) ∧
    getOrCreateAuthClient ⟨true, fun _ => true⟩ ⟨some ⟨.instancePrincipal⟩⟩
        ⟨some (entryFromFields ⟨"t1", some "apikey", "ty", "uy", "fy",
          "BEGIN PRIVATE KEY", "", "ry"⟩), true, true, true⟩ =
      (.ok ⟨.instancePrincipal⟩, ⟨some ⟨.instancePrincipal⟩⟩) ∧
    providerForConfig ⟨true, fun _ => true⟩
        (some (entryFromFields ⟨"t1", some "apikey", "ty", "uy", "fy",
          "BEGIN PRIVATE KEY", "", "ry"⟩)) =
      .ok (.raw "ty" "uy" "ry" "fy" "BEGIN PRIVATE KEY" none) ∧
    (⟨.instancePrincipal⟩ : AuthenticationClient).provider ≠
      .raw "ty" "uy" "ry" "fy" "BEGIN PRIVATE KEY" none :=
  ⟨rfl, by decide, rfl, rfl, by decide⟩

/-- C4: for a Create/Update resolving to `"apikey"` mode (home tenancy id
non-blank, existence check passed): if any of the five required fields is
blank the handler fails with the single aggregate error naming the set
and changes nothing; if all five are present but the private key lacks
the `BEGIN` marker or the `PRIVATE KEY` substring, the handler fails with
the PEM-format error and changes nothing. -/
theorem apikey_validation_errors (op : Operation) (b : BackendState)
    (s : Storage) (data : FieldData)
    (hht : ¬ trimSpace data.home_tenancy_id = "")
    (hget : s.getOk = true)
    (hexist : ¬ (s.config = none ∧ op = Operation.update))
    (hmode : authModeOf data = "apikey") :
    ((data.tenancy_ocid = "" ∨ data.user_ocid = "" ∨ data.fingerprint = "" ∨
        data.private_key = "" ∨ data.region = "") →
      pathConfigCreateUpdate op b s data =
        (.errorResponse "API key authentication requires tenancy_ocid, user_ocid, fingerprint, private_key, and region", s, b)) ∧
    (¬ (data.tenancy_ocid = "" ∨ data.user_ocid = "" ∨ data.fingerprint = "" ∨
        data.private_key = "" ∨ data.region = "") →
      (hasSub data.private_key "BEGIN" = false ∨
        hasSub data.private_key "PRIVATE KEY" = false) →
      pathConfigCreateUpdate op b s data =
        (.errorResponse "private_key must be in PEM format", s, b)) := by
  constructor
  · intro hblank
    simp [pathConfigCreateUpdate, hht, getOCIConfig_ok s hget, hexist, hmode,
      hblank]
  · intro hblank hpem
    simp [pathConfigCreateUpdate, hht, getOCIConfig_ok s hget, hexist, hmode,
      hblank, hpem]

/-- Witness for C4: a Create in `apikey` mode with every API-key field
blank fails with the aggregate message and mutates nothing. -/
theorem apikey_validation_errors_witness :
    ((("" : String) = "" ∨ ("" : String) = "" ∨ ("" : String) = "" ∨
        ("" : String) = "" ∨ ("" : String) = "") →
      pathConfigCreateUpdate .create ⟨none⟩ ⟨none, true, true, true⟩
          ⟨"t1", some "apikey", "", "", "", "", "", ""⟩ =
        (.errorResponse "API key authentication requires tenancy_ocid, user_ocid, fingerprint, private_key, and region",
          ⟨none, true, true, true⟩, ⟨none⟩)) ∧
    (¬ (("" : String) = "" ∨ ("" : String) = "" ∨ ("" : String) = "" ∨
        ("" : String) = "" ∨ ("" : String) = "") →
      (hasSub "" "BEGIN" = false ∨ hasSub "" "PRIVATE KEY" = false) →
      pathConfigCreateUpdate .create ⟨none⟩ ⟨none, true, true, true⟩
          ⟨"t1", some "apikey", "", "", "", "", "", ""⟩ =
        (.errorResponse "private_key must be in PEM format",
          ⟨none, true, true, true⟩, ⟨none⟩)) :=
  apikey_validation_errors .create ⟨none⟩ ⟨none, true, true, true⟩
    ⟨"t1", some "apikey", "", "", "", "", "", ""⟩
    (by decide) rfl (by decide) rfl

/-- C6: from an empty cache with a readable storage, every successfully
built client is the ambient instance-principal variant when the config is
absent or its mode is empty or `"instance"`, and is the explicit raw
variant carrying the stored fields — with the passphrase passed as `none`
exactly when the stored passphrase is blank — when the mode is
`"apikey"`; any other stored mode makes the call fail with the
invalid-auth-mode error. -/
theorem getOrCreate_mode_dispatch (env : Env) (b : BackendState)
    (s : Storage) (hcache : b.authenticationClient = none)
    (hget : s.getOk = true) :
    (∀ c b2, getOrCreateAuthClient env b s = (.ok c, b2) →
      ((s.config = none ∨ ∃ e, s.config = some e ∧
          (e.AuthMode = "" ∨ e.AuthMode = "instance")) →
        c.provider = .instancePrincipal) ∧
      (∀ e, s.config = some e → e.AuthMode = "apikey" →
        c.provider = .raw e.TenancyOCID e.UserOCID e.Region e.Fingerprint
          e.PrivateKey
          (if e.PrivateKeyPassphrase = "" then none
           else some e.PrivateKeyPassphrase))) ∧
    (∀ e, s.config = some e → e.AuthMode ≠ "" → e.AuthMode ≠ "instance" →
      e.AuthMode ≠ "apikey" →
      getOrCreateAuthClient env b s =
        (.error ("invalid auth_mode: " ++ e.AuthMode), b)) := by
  constructor
  · intro c b2 hrun
    obtain ⟨-, hprov, -⟩ := getOrCreate_empty_build env b s c b2 hcache hrun
    constructor
    · intro hinst
      rw [providerForConfig_instance env s.config hinst] at hprov
      simp only [createInstancePrincipalProvider] at hprov
      split at hprov
      · simp only [Except.ok.injEq] at hprov
        exact hprov.symm
      · simp at hprov
    · intro e he hmode
      rw [he, providerForConfig_apikey env e hmode] at hprov
      simp only [createAPIKeyProvider] at hprov
      split at hprov
      · simp at hprov
      · simp only [Except.ok.injEq] at hprov
        exact hprov.symm
  · intro e he h1 h2 h3
    refine getOrCreate_provider_error env b s _ hcache hget ?_
    rw [he]
    exact providerForConfig_invalid env e h1 h2 h3

/-- Witness for C6 at a stored `apikey` entry with a blank passphrase. -/
theorem getOrCreate_mode_dispatch_witness :
    (∀ c b2, getOrCreateAuthClient ⟨true, fun _ => true⟩ ⟨none⟩
        ⟨some ⟨"t1", "apikey", "ty", "uy", "fy", "ky", "", "ry"⟩,
          true, true, true⟩ = (.ok c, b2) →
      (((⟨some ⟨"t1", "apikey", "ty", "uy", "fy", "ky", "", "ry"⟩,
          true, true, true⟩ : Storage).config = none ∨
        ∃ e, (⟨some ⟨"t1", "apikey", "ty", "uy", "fy", "ky", "", "ry"⟩,
          true, true, true⟩ : Storage).config = some e ∧
          (e.AuthMode = "" ∨ e.AuthMode = "instance")) →
        c.provider = .instancePrincipal) ∧
      (∀ e, (⟨some ⟨"t1", "apikey", "ty", "uy", "fy", "ky", "", "ry"⟩,
          true, true, true⟩ : Storage).config = some e →
        e.AuthMode = "apikey" →
        c.provider = .raw e.TenancyOCID e.UserOCID e.Region e.Fingerprint
          e.PrivateKey
          (if e.PrivateKeyPassphrase = "" then none
           else some e.PrivateKeyPassphrase))) ∧
    (∀ e, (⟨some ⟨"t1", "apikey", "ty", "uy", "fy", "ky", "", "ry"⟩,
        true, true, true⟩ : Storage).config = some e →
      e.AuthMode ≠ "" → e.AuthMode ≠ "instance" → e.AuthMode ≠ "apikey" →
      getOrCreateAuthClient ⟨true, fun _ => true⟩ ⟨none⟩
          ⟨some ⟨"t1", "apikey", "ty", "uy", "fy", "ky", "", "ry"⟩,
            true, true, true⟩ =
        (.error ("invalid auth_mode: " ++ e.AuthMode), ⟨none⟩)) :=
  getOrCreate_mode_dispatch ⟨true, fun _ => true⟩ ⟨none⟩
    ⟨some ⟨"t1", "apikey", "ty", "uy", "fy", "ky", "", "ry"⟩,
      true, true, true⟩ rfl rfl

end OciAuth
